import Mathlib

/-!
Verification development for an endless side-scrolling runner game.

The Go source is shallowly embedded here:
- float64 values are modelled as rationals; the float literals of the
  source (0.8, 0.6, 5.5, ...) become the corresponding rational literals.
- the pseudo-random source (rand.Float32 draws) is modelled as an
  arbitrary stream of rationals, consumed one value per call, so that
  theorems quantify over every possible random stream;
- per-tick key polling becomes an Input record of booleans;
- the in-place mutation of the Go structs becomes explicit state passing.
Audio playback and all drawing code are external collaborators and are
not modelled; the hasPlayedDieSound latch is kept because it is player
state (sound loading always succeeds in the source, so the nil checks on
the sound players are modelled as always passing).
-/

/-! ## Collision primitive (collision.go)

`CollisionBox` is a Go interface returning (left, right, top, bottom);
it is embedded as the record `Box`, and every entity gets a function
computing its `Box`. -/

structure Box where
  left : ℚ
  right : ℚ
  top : ℚ
  bottom : ℚ
deriving DecidableEq

/-- CheckCollision: AABB overlap test, strict inequalities on both axes. -/
def CheckCollision (a b : Box) : Bool :=
  decide (a.left < b.right) && decide (a.right > b.left) &&
    decide (a.top < b.bottom) && decide (a.bottom > b.top)

/-! ## Level generator (gmap.go)

`MapItem` keeps the Go field names: HasRoad is the has-ground flag,
HasObstacle / HasMonster / HasTool the three placement flags. -/

structure MapItem where
  Index : Nat
  HasRoad : Bool
  HasObstacle : Bool
  HasMonster : Bool
  HasTool : Bool
deriving DecidableEq, Inhabited

/-- The random source: `rand.Float32` returns values in [0,1); we model
the stream of returned values as a function from the draw counter to ℚ. -/
abbrev RandStream := Nat → ℚ

/-- The mutable loop state of GenMap: the draw counter `k` (position in
the random stream) plus the three Go loop variables. -/
structure GenState where
  k : Nat
  noRoadCount : Nat
  prevHasObstacle : Bool
  prevHasMonster : Bool
deriving DecidableEq

/-- Road decision for column `i` (GenMap lines: first 10 columns forced,
forced after 2 consecutive road-less columns, otherwise drawn with
probability 0.8). Returns the flag and the updated state. -/
def decideRoad (r : RandStream) (i : Nat) (s : GenState) : Bool × GenState :=
  if i < 10 then (true, { s with noRoadCount := 0 })
  else if 2 ≤ s.noRoadCount then (true, { s with noRoadCount := 0 })
  else
    let hr := decide (r s.k < mkRat 4 5)
    (hr, { s with k := s.k + 1, noRoadCount := if hr then 0 else s.noRoadCount + 1 })

/-- Obstacle decision: only drawn (with probability 0.1) when the column
has road and the previous column had no obstacle. -/
def decideObstacle (r : RandStream) (hasRoad : Bool) (s : GenState) : Bool × GenState :=
  if hasRoad = true ∧ s.prevHasObstacle = false then
    let ho := decide (r s.k < mkRat 1 10)
    (ho, { s with k := s.k + 1, prevHasObstacle := ho })
  else (false, { s with prevHasObstacle := false })

/-- Monster decision: only drawn (with probability 0.05) when the column
has road, no obstacle, and the previous column had no monster. -/
def decideMonster (r : RandStream) (hasRoad hasObstacle : Bool) (s : GenState) : Bool × GenState :=
  if hasRoad = true ∧ hasObstacle = false ∧ s.prevHasMonster = false then
    let hm := decide (r s.k < mkRat 1 20)
    (hm, { s with k := s.k + 1, prevHasMonster := hm })
  else (false, { s with prevHasMonster := false })

/-- Tool (pickup) decision: drawn with probability 0.03 on every column,
independent of every other flag. -/
def decideTool (r : RandStream) (s : GenState) : Bool × GenState :=
  (decide (r s.k < mkRat 3 100), { s with k := s.k + 1 })

/-- One iteration of the generation loop of GenMap, producing the item
for column `i` and the updated loop state. -/
def genItem (r : RandStream) (i : Nat) (s : GenState) : MapItem × GenState :=
  let rd := decideRoad r i s
  let ob := decideObstacle r rd.1 rd.2
  let mo := decideMonster r rd.1 ob.1 ob.2
  let tl := decideTool r mo.2
  (⟨i, rd.1, ob.1, mo.1, tl.1⟩, tl.2)

/-- The generation loop of GenMap: `n` remaining columns, `i` the index
of the next column, `s` the loop state. -/
def genLoop (r : RandStream) : Nat → Nat → GenState → List MapItem
  | 0, _, _ => []
  | n + 1, i, s =>
    let st := genItem r i s
    st.1 :: genLoop r n (i + 1) st.2

/-- The post-pass of GenMap: clear the monster flag of every road column
that starts or ends a contiguous road segment (the loop reads only the
road flags of the neighbours, which the pass never modifies, so the
in-place Go loop is a pointwise map). -/
def clearEdgeMonsters (items : List MapItem) : List MapItem :=
  let count := items.length
  (List.range count).map (fun i =>
    let item := items.getD i default
    if item.HasRoad = false then item
    else
      let isRoadStart := i = 0 ∨ (items.getD (i - 1) default).HasRoad = false
      let isRoadEnd := i = count - 1 ∨ (items.getD (i + 1) default).HasRoad = false
      if isRoadStart ∨ isRoadEnd then { item with HasMonster := false } else item)

/-- GenMap: generate `count` lane cells from the random stream `r`
(the source seeds a PRNG; here the resulting draw stream is universally
quantified). A non-positive count yields the empty level. -/
def GenMap (count : Nat) (r : RandStream) : List MapItem :=
  if count = 0 then []
  else clearEdgeMonsters (genLoop r count 0 ⟨0, 0, false, false⟩)

/-! ## Obstacle model (obstacle.go) -/

inductive ObstacleType where
  | ObstacleTypeGrass
  | ObstacleTypeObstacle
  | ObstacleTypeMonster
  | ObstacleTypeTool
deriving DecidableEq

export ObstacleType (ObstacleTypeGrass ObstacleTypeObstacle ObstacleTypeMonster ObstacleTypeTool)

/-- A world entity (grass, obstacle, monster or tool). The draw anchor
(Dx, Dy) and the image are render-only and omitted; X, Y, Width, Height
are the collision box, `type` is the category tag (Go field Type). -/
structure Obstacle where
  X : ℚ
  Y : ℚ
  Width : ℚ
  Height : ℚ
  type : ObstacleType
deriving DecidableEq

/-- Obstacle.GetCollisionBox. -/
def Obstacle.GetCollisionBox (o : Obstacle) : Box :=
  ⟨o.X, o.X + o.Width, o.Y, o.Y + o.Height⟩

/-! ## Player state machine (player.go, animation.go) -/

inductive AnimationState where
  | StateIdle
  | StateMove
  | StateJumpBefore
  | StateJumpLoop
  | StateJumpEnd
  | StateDie
  | StateFly
deriving DecidableEq

export AnimationState (StateIdle StateMove StateJumpBefore StateJumpLoop StateJumpEnd StateDie StateFly)

/-- Per-state animation metadata (image and frame sizes are render-only
and omitted). -/
structure Animation where
  FrameCount : Nat
  Loop : Bool
  FPS : ℚ
deriving DecidableEq

/-- The animation table installed by NewAnimationController; every state
has an entry, so the nil-animation guards of the source never fire. -/
def animations : AnimationState → Animation
  | StateIdle => ⟨39, true, 20⟩
  | StateMove => ⟨26, true, 20⟩
  | StateJumpBefore => ⟨10, false, 27⟩
  | StateJumpLoop => ⟨1, true, 1⟩
  | StateJumpEnd => ⟨7, false, 27⟩
  | StateDie => ⟨30, false, 20⟩
  | StateFly => ⟨22, true, 20⟩

/-- gameFPS (animation.go). -/
def gameFPS : ℚ := 60

/-- AnimationController.Update restricted to the frame cursor: advance by
FPS/gameFPS, wrap looping clips, clamp non-looping clips to the last
frame. -/
def animationFrameStep (state : AnimationState) (frame : ℚ) : ℚ :=
  let anim := animations state
  let frame1 := frame + anim.FPS / gameFPS
  if frame1 ≥ (anim.FrameCount : ℚ) then
    if anim.Loop then frame1 - (anim.FrameCount : ℚ) else (anim.FrameCount : ℚ) - 1
  else frame1

/-- Player constants (player.go). -/
def playerSpeed : ℚ := 11/2
def playerCollisionWidth : ℚ := 60
def playerCollisionHeight : ℚ := 346
def gravity : ℚ := 3/5
def jumpSpeed : ℚ := -18
def flySpeed : ℚ := 15
def flyDurationFrames : Nat := 300

/-- Window and map constants (game.go). -/
def windowWidth : ℚ := 1280
def windowHeight : ℚ := 720
def mapItemWidth : ℚ := 120
def cameraSpeed : ℚ := 5

/-- The player. The AnimationController it owns is inlined as the two
fields animState (currentState) and animFrame (currentFrame); the sound
players are external and omitted. -/
structure Player where
  X : ℚ
  Y : ℚ
  VelocityY : ℚ
  IsOnGround : Bool
  wasSpaceDown : Bool
  wasOnGround : Bool
  FacingLeft : Bool
  IsDead : Bool
  hasPlayedDieSound : Bool
  IsFlying : Bool
  flyFrameCount : Nat
  animState : AnimationState
  animFrame : ℚ
deriving DecidableEq

/-- Player.GetCollisionBox: origin at bottom centre. -/
def Player.GetCollisionBox (p : Player) : Box :=
  ⟨p.X - playerCollisionWidth / 2, p.X + playerCollisionWidth / 2,
    p.Y - playerCollisionHeight, p.Y⟩

/-- AnimationController.SetState: switching to a different state resets
the frame cursor; setting the current state again is a no-op. -/
def Player.setAnimState (p : Player) (state : AnimationState) : Player :=
  if p.animState = state then p
  else { p with animState := state, animFrame := 0 }

/-- AnimationController.Update lifted to the player. -/
def Player.animationUpdate (p : Player) : Player :=
  { p with animFrame := animationFrameStep p.animState p.animFrame }

/-- AnimationController.IsFinished: non-looping clip at (or within 0.1
of) its last frame. -/
def Player.animationIsFinished (p : Player) : Bool :=
  let anim := animations p.animState
  !anim.Loop && decide (p.animFrame ≥ (anim.FrameCount : ℚ) - 1/10)

/-- The per-tick input sample: left is ArrowLeft or A held, right is
ArrowRight or D held, space is Space held. -/
structure Input where
  left : Bool
  right : Bool
  space : Bool
deriving DecidableEq

/-- Player.handleDeath: latch IsDead, switch to the death animation, and
fire the death sound once (the sound itself is external; its latch is
player state). -/
def Player.handleDeath (p : Player) : Player :=
  let p1 := if p.IsDead = false then Player.setAnimState { p with IsDead := true } StateDie else p
  if p1.hasPlayedDieSound = false then { p1 with hasPlayedDieSound := true } else p1

/-- The screen test of Player.checkDeath: the collision box, translated
by the camera, is entirely outside the viewport on some side. -/
def Player.isFullyOffScreen (p : Player) (cameraX : ℚ) : Prop :=
  let b := p.GetCollisionBox
  b.right - cameraX < 0 ∨ b.left - cameraX > windowWidth ∨
    b.bottom < 0 ∨ b.top > windowHeight

instance (p : Player) (cameraX : ℚ) : Decidable (p.isFullyOffScreen cameraX) := by
  unfold Player.isFullyOffScreen; exact inferInstance

/-- Player.checkDeath: die exactly when the box is fully off screen. -/
def Player.checkDeath (p : Player) (cameraX : ℚ) : Player :=
  if p.isFullyOffScreen cameraX then p.handleDeath else p

/-- Player.wouldCollideHorizontal: would the player, moved to newX,
overlap some entity that is neither a monster nor a tool. -/
def Player.wouldCollideHorizontal (p : Player) (newX : ℚ) (obstacles : List Obstacle) : Bool :=
  obstacles.any (fun o =>
    !(o.type = ObstacleTypeMonster || o.type = ObstacleTypeTool) &&
      CheckCollision ({ p with X := newX } : Player).GetCollisionBox o.GetCollisionBox)

/-- The horizontal-movement block of Player.Update (left then right;
each move is rejected at the map bounds or on collision with a blocking
entity). -/
def Player.moveHorizontal (p : Player) (input : Input) (mapWidth : ℚ)
    (obstacles : List Obstacle) : Player :=
  let p1 :=
    if input.left = true then
      let newX := p.X - playerSpeed
      if newX ≥ playerCollisionWidth / 2 ∧ p.wouldCollideHorizontal newX obstacles = false
      then { p with X := newX, FacingLeft := true } else p
    else p
  if input.right = true then
    let newX := p1.X + playerSpeed
    if newX ≤ mapWidth - playerCollisionWidth / 2 ∧ p1.wouldCollideHorizontal newX obstacles = false
    then { p1 with X := newX, FacingLeft := false } else p1
  else p1

/-- The jump block of Player.Update: edge-triggered on the space key
(grounded, held now, not held on the previous tick), then refresh the
wasSpaceDown latch. -/
def Player.handleJump (p : Player) (spacePressed : Bool) : Player :=
  let p1 :=
    if p.IsOnGround = true ∧ spacePressed = true ∧ p.wasSpaceDown = false then
      { p with VelocityY := jumpSpeed, IsOnGround := false }
    else p
  { p1 with wasSpaceDown := spacePressed }

/-- The body of the collision loop of Player.checkCollisionWithObstacles:
skip non-overlapping entities, die on a monster (stopping the scan),
skip tools, and land on grass/obstacle tops while falling. -/
def Player.collideLoop : Player → List Obstacle → Player
  | p, [] => p
  | p, o :: rest =>
    if CheckCollision p.GetCollisionBox o.GetCollisionBox = false then
      Player.collideLoop p rest
    else
      match o.type with
      | ObstacleTypeMonster => p.handleDeath
      | ObstacleTypeTool => Player.collideLoop p rest
      | _ =>
        let obstacleTop := o.GetCollisionBox.top
        let p1 :=
          if p.VelocityY ≥ 0 ∧ p.Y > obstacleTop then
            { p with Y := obstacleTop, VelocityY := 0, IsOnGround := true }
          else p
        Player.collideLoop p1 rest

/-- Player.checkCollisionWithObstacles: reset IsOnGround, then scan the
entity list. -/
def Player.checkCollisionWithObstacles (p : Player) (obstacles : List Obstacle) : Player :=
  Player.collideLoop { p with IsOnGround := false } obstacles

/-- Player.updateFlyingState: advance the flight counter; at the
configured duration exit flying into JumpLoop, otherwise move right by
flySpeed unless that would cross the right map bound. -/
def Player.updateFlyingState (p : Player) (mapWidth : ℚ) : Player :=
  let p1 := { p with flyFrameCount := p.flyFrameCount + 1 }
  if p1.flyFrameCount ≥ flyDurationFrames then
    Player.setAnimState { p1 with IsFlying := false, flyFrameCount := 0 } StateJumpLoop
  else
    let newX := p1.X + flySpeed
    if newX ≤ mapWidth - playerCollisionWidth / 2 then { p1 with X := newX } else p1

/-- The ground-to-air transition block of Player.updateAnimationState
(currentState is the animation state sampled once at the top of the
source function). -/
def Player.transitionJumpStart (p : Player) (currentState : AnimationState) : Player :=
  if p.wasOnGround = true ∧ p.IsOnGround = false then
    (if currentState ≠ StateJumpBefore then p.setAnimState StateJumpBefore else p)
  else p

/-- The air-to-ground transition block of Player.updateAnimationState. -/
def Player.transitionJumpEnd (p : Player) (currentState : AnimationState) : Player :=
  if p.wasOnGround = false ∧ p.IsOnGround = true then
    (if currentState ≠ StateJumpEnd then p.setAnimState StateJumpEnd else p)
  else p

/-- The switch block of Player.updateAnimationState: it dispatches on
currentState, the state sampled at the top of the function, not on the
possibly-updated state. -/
def Player.animSwitch (p : Player) (currentState : AnimationState) (isMoving : Bool) : Player :=
  match currentState with
  | StateJumpBefore =>
    if p.animationIsFinished = true then p.setAnimState StateJumpLoop else p
  | StateJumpLoop => p
  | StateJumpEnd =>
    if p.animationIsFinished = true then
      (if isMoving = true then p.setAnimState StateMove else p.setAnimState StateIdle)
    else p
  | StateIdle | StateMove =>
    if p.IsOnGround = true then
      if isMoving = true then
        (if currentState ≠ StateMove then p.setAnimState StateMove else p)
      else
        (if currentState ≠ StateIdle then p.setAnimState StateIdle else p)
    else p
  | _ => p

/-- Player.updateAnimationState: the animation-state machine layered on
the physics flags. The source samples currentState once, runs the two
transition blocks and the switch as sequential mutations of the same
struct, and finally refreshes wasOnGround (the transition blocks only
ever change animState/animFrame, so reading the flag fields off the
updated struct is the same as off the original). -/
def Player.updateAnimationState (p : Player) (isMoving : Bool) : Player :=
  let currentState := p.animState
  if p.IsDead = true then p
  else if p.IsFlying = true then
    (if currentState ≠ StateFly then p.setAnimState StateFly else p)
  else
    let p3 := Player.animSwitch
      (Player.transitionJumpEnd (Player.transitionJumpStart p currentState) currentState)
      currentState isMoving
    { p3 with wasOnGround := p3.IsOnGround }

/-- Player.Update: one simulation tick of the player state machine. -/
def Player.Update (p : Player) (obstacles : List Obstacle) (mapWidth cameraX : ℚ)
    (input : Input) : Player :=
  let p0 := if p.IsDead = false then p.checkDeath cameraX else p
  if p0.IsDead = true then p0.animationUpdate
  else if p0.IsFlying = true then
    (((p0.updateFlyingState mapWidth).updateAnimationState false)).animationUpdate
  else
    let isMoving := input.left || input.right
    let p1 := p0.moveHorizontal input mapWidth obstacles
    let p2 := p1.handleJump input.space
    let p3 := { p2 with VelocityY := p2.VelocityY + gravity }
    let p4 := { p3 with Y := p3.Y + p3.VelocityY }
    let p5 := p4.checkCollisionWithObstacles obstacles
    ((p5.updateAnimationState isMoving)).animationUpdate

/-! ## Session controller (game.go) -/

/-- The session state: the live entity collection, the player and the
camera (map data and render resources omitted where render-only). -/
structure Game where
  MapItems : List MapItem
  Obstacles : List Obstacle
  player : Player
  CameraX : ℚ
deriving DecidableEq

/-- The backward scan of Game.removeTouchedTools. The Go loop runs from
the highest index down; recursing on the tail first processes exactly the
higher indices first, and removing an element keeps all lower indices
intact. On a touched tool: enter flying (reposition to the mid-air
anchor, Fly animation) only when not already flying, then reset the
flight counter unconditionally, and drop the entity. -/
def removeToolsLoop (cameraX : ℚ) : Player → List Obstacle → Player × List Obstacle
  | p, [] => (p, [])
  | p, o :: rest =>
    let st := removeToolsLoop cameraX p rest
    let p1 := st.1
    if o.type = ObstacleTypeTool ∧ CheckCollision p1.GetCollisionBox o.GetCollisionBox = true then
      let p2 :=
        if p1.IsFlying = false then
          Player.setAnimState
            { p1 with IsFlying := true, Y := 240, X := cameraX + windowWidth / 2 } StateFly
        else p1
      ({ p2 with flyFrameCount := 0 }, st.2)
    else (p1, o :: st.2)

/-- Game.removeTouchedTools: remove every touched tool from the live
collection and trigger the flying regime. -/
def Game.removeTouchedTools (g : Game) : Game :=
  let st := removeToolsLoop g.CameraX g.player g.Obstacles
  { g with player := st.1, Obstacles := st.2 }

/-! ## Concrete instances and auxiliary definitions used by the theorems -/

/-- The random stream behind the C1 counterexample: every draw is 0.9
(so the road draw of column 10 fails) except draw 31, the tool draw of
column 10, which is 0 and therefore succeeds. -/
def rPickupNoRoad : RandStream := fun k => if k = 31 then 0 else mkRat 9 10

/-- Stream for the C1 witness: draw 9 (the obstacle draw of column 3)
succeeds, everything else is 1/2. -/
def rObstacleAt3 : RandStream := fun k => if k = 9 then 0 else mkRat 1 2

/-- Stream for the C8 witness: draw 16 (the monster draw of column 5)
succeeds, everything else is 1/2. -/
def rMonsterAt5 : RandStream := fun k => if k = 16 then 0 else mkRat 1 2

/-- The all-1/2 random stream. -/
def rHalf : RandStream := fun _ => mkRat 1 2

/-- k consecutive ticks of the flying branch (Player.updateFlyingState),
as run by Player.Update while the player keeps flying. -/
def Player.flyTicks (p : Player) (mw : ℚ) : Nat → Player
  | 0 => p
  | k + 1 => ((p.flyTicks mw k)).updateFlyingState mw

/-- A concrete dead player (for the C10 witness). -/
def pDeadW : Player :=
  ⟨0, 0, 0, false, false, false, false, true, true, false, 0, StateDie, 3⟩

/-- A grounded player with the space key released on the previous tick
(for the C4 witness). -/
def pJumpW : Player :=
  ⟨0, 0, 0, true, false, true, false, false, false, false, 0, StateIdle, 0⟩

/-- A flying player at the right map bound of a 120-wide level (for the
C5 counterexample). -/
def pFlyAtEdge : Player :=
  ⟨90, 240, 0, false, false, false, false, false, false, true, 0, StateFly, 0⟩

/-- A flying player in open space (for the C5 witness). -/
def pFlyFree : Player :=
  ⟨0, 240, 0, false, false, false, false, false, false, true, 0, StateFly, 0⟩

/-- A falling player above a grass tile (for the C3 witness). -/
def pLandW : Player :=
  ⟨100, 50, 1, false, false, false, false, false, false, false, 0, StateJumpLoop, 0⟩

/-- The grass tile under pLandW. -/
def eLandW : Obstacle := ⟨80, 40, 120, 40, ObstacleTypeGrass⟩

/-- The condition of the tool scan, as a boolean predicate on entities
for a fixed player. -/
def touchedTool (p : Player) (o : Obstacle) : Bool :=
  decide (o.type = ObstacleTypeTool) && CheckCollision p.GetCollisionBox o.GetCollisionBox

/-- An already-flying player mid-flight with a nonzero flight counter
(for the C6 counterexample). -/
def pFlyMid : Player :=
  ⟨640, 240, 0, false, false, false, false, false, false, true, 7, StateFly, 0⟩

/-- A tool entity overlapping pFlyMid. -/
def eToolW : Obstacle := ⟨610, 120, 100, 120, ObstacleTypeTool⟩

/-- The session state for the C6 counterexample. -/
def gFlyMid : Game := ⟨[], [eToolW], pFlyMid, 0⟩

/-! ## Lemmas: collision primitive -/

/-- C2: the collision primitive returns true iff the two boxes overlap
strictly on both axes; touching edges (equality on either axis) are not
a collision. The test is a pure function of its two arguments. -/
theorem checkCollision_characterization (a b : Box) :
    (CheckCollision a b = true ↔
      (a.left < b.right ∧ a.right > b.left ∧ a.top < b.bottom ∧ a.bottom > b.top))
    ∧ (a.right = b.left → CheckCollision a b = false)
    ∧ (a.bottom = b.top → CheckCollision a b = false) := by
  refine ⟨?_, ?_, ?_⟩
  · simp [CheckCollision, and_assoc]
  · intro h
    simp [CheckCollision, h]
  · intro h
    simp [CheckCollision, h]

/-- Witness for C2 at concrete boxes whose edges touch. -/
theorem checkCollision_characterization_witness :
    CheckCollision ⟨0, 1, 0, 1⟩ ⟨1, 2, 0, 1⟩ = false :=
  (checkCollision_characterization ⟨0, 1, 0, 1⟩ ⟨1, 2, 0, 1⟩).2.1 rfl

/-! ## Lemmas: level generator -/

@[simp] lemma default_MapItem_HasRoad : (default : MapItem).HasRoad = false := rfl
@[simp] lemma default_MapItem_HasObstacle : (default : MapItem).HasObstacle = false := rfl
@[simp] lemma default_MapItem_HasMonster : (default : MapItem).HasMonster = false := rfl

@[simp] lemma decideRoad_prevObstacle (r : RandStream) (i : Nat) (s : GenState) :
    ((decideRoad r i s).2).prevHasObstacle = s.prevHasObstacle := by
  unfold decideRoad
  split
  · rfl
  split <;> rfl

@[simp] lemma decideRoad_prevMonster (r : RandStream) (i : Nat) (s : GenState) :
    ((decideRoad r i s).2).prevHasMonster = s.prevHasMonster := by
  unfold decideRoad
  split
  · rfl
  split <;> rfl

lemma decideRoad_first10 (r : RandStream) (i : Nat) (s : GenState) (h : i < 10) :
    (decideRoad r i s).1 = true := by
  unfold decideRoad
  rw [if_pos h]

lemma decideObstacle_road (r : RandStream) (hasRoad : Bool) (s : GenState)
    (h : (decideObstacle r hasRoad s).1 = true) : hasRoad = true := by
  unfold decideObstacle at h
  split at h
  · next hc => exact hc.1
  · simp at h

@[simp] lemma decideObstacle_state (r : RandStream) (hasRoad : Bool) (s : GenState) :
    ((decideObstacle r hasRoad s).2).prevHasObstacle = (decideObstacle r hasRoad s).1 := by
  unfold decideObstacle
  split <;> rfl

lemma decideObstacle_prev (r : RandStream) (hasRoad : Bool) (s : GenState)
    (h : s.prevHasObstacle = true) : (decideObstacle r hasRoad s).1 = false := by
  unfold decideObstacle
  split
  · next hc => rw [hc.2] at h; cases h
  · rfl

@[simp] lemma decideObstacle_prevMonster (r : RandStream) (hasRoad : Bool) (s : GenState) :
    ((decideObstacle r hasRoad s).2).prevHasMonster = s.prevHasMonster := by
  unfold decideObstacle
  split <;> rfl

lemma decideMonster_road (r : RandStream) (hasRoad hasObstacle : Bool) (s : GenState)
    (h : (decideMonster r hasRoad hasObstacle s).1 = true) : hasRoad = true := by
  unfold decideMonster at h
  split at h
  · next hc => exact hc.1
  · simp at h

@[simp] lemma decideMonster_state (r : RandStream) (hasRoad hasObstacle : Bool) (s : GenState) :
    ((decideMonster r hasRoad hasObstacle s).2).prevHasMonster =
      (decideMonster r hasRoad hasObstacle s).1 := by
  unfold decideMonster
  split <;> rfl

lemma decideMonster_prev (r : RandStream) (hasRoad hasObstacle : Bool) (s : GenState)
    (h : s.prevHasMonster = true) : (decideMonster r hasRoad hasObstacle s).1 = false := by
  unfold decideMonster
  split
  · next hc => rw [hc.2.2] at h; cases h
  · rfl

@[simp] lemma decideMonster_prevObstacle (r : RandStream) (hasRoad hasObstacle : Bool)
    (s : GenState) :
    ((decideMonster r hasRoad hasObstacle s).2).prevHasObstacle = s.prevHasObstacle := by
  unfold decideMonster
  split <;> rfl

@[simp] lemma decideTool_prevObstacle (r : RandStream) (s : GenState) :
    ((decideTool r s).2).prevHasObstacle = s.prevHasObstacle := rfl

@[simp] lemma decideTool_prevMonster (r : RandStream) (s : GenState) :
    ((decideTool r s).2).prevHasMonster = s.prevHasMonster := rfl

lemma genItem_road_eq (r : RandStream) (i : Nat) (s : GenState) :
    (genItem r i s).1.HasRoad = (decideRoad r i s).1 := rfl

lemma genItem_obstacle_eq (r : RandStream) (i : Nat) (s : GenState) :
    (genItem r i s).1.HasObstacle =
      (decideObstacle r (decideRoad r i s).1 (decideRoad r i s).2).1 := rfl

lemma genItem_monster_eq (r : RandStream) (i : Nat) (s : GenState) :
    (genItem r i s).1.HasMonster =
      (decideMonster r (decideRoad r i s).1
        (decideObstacle r (decideRoad r i s).1 (decideRoad r i s).2).1
        (decideObstacle r (decideRoad r i s).1 (decideRoad r i s).2).2).1 := rfl

lemma genItem_obstacle_road (r : RandStream) (i : Nat) (s : GenState)
    (h : (genItem r i s).1.HasObstacle = true) : (genItem r i s).1.HasRoad = true := by
  rw [genItem_obstacle_eq] at h
  rw [genItem_road_eq]
  exact decideObstacle_road _ _ _ h

lemma genItem_monster_road (r : RandStream) (i : Nat) (s : GenState)
    (h : (genItem r i s).1.HasMonster = true) : (genItem r i s).1.HasRoad = true := by
  rw [genItem_monster_eq] at h
  rw [genItem_road_eq]
  exact decideMonster_road _ _ _ _ h

lemma genItem_first10 (r : RandStream) (i : Nat) (s : GenState) (h : i < 10) :
    (genItem r i s).1.HasRoad = true := by
  rw [genItem_road_eq]
  exact decideRoad_first10 _ _ _ h

lemma genItem_prev_obstacle (r : RandStream) (i : Nat) (s : GenState)
    (h : s.prevHasObstacle = true) : (genItem r i s).1.HasObstacle = false := by
  rw [genItem_obstacle_eq]
  exact decideObstacle_prev _ _ _ (by rw [decideRoad_prevObstacle]; exact h)

lemma genItem_prev_monster (r : RandStream) (i : Nat) (s : GenState)
    (h : s.prevHasMonster = true) : (genItem r i s).1.HasMonster = false := by
  rw [genItem_monster_eq]
  exact decideMonster_prev _ _ _ _ (by simp [h])

lemma genItem_state_obstacle (r : RandStream) (i : Nat) (s : GenState) :
    (genItem r i s).2.prevHasObstacle = (genItem r i s).1.HasObstacle := by
  show (decideTool r _).2.prevHasObstacle = _
  rw [decideTool_prevObstacle, decideMonster_prevObstacle, decideObstacle_state]
  rfl

lemma genItem_state_monster (r : RandStream) (i : Nat) (s : GenState) :
    (genItem r i s).2.prevHasMonster = (genItem r i s).1.HasMonster := by
  show (decideTool r _).2.prevHasMonster = _
  rw [decideTool_prevMonster, decideMonster_state]
  rfl

lemma genLoop_length (r : RandStream) (n i : Nat) (s : GenState) :
    (genLoop r n i s).length = n := by
  induction n generalizing i s with
  | zero => rfl
  | succ n ih => simp [genLoop, ih]

lemma genLoop_obstacle_road (r : RandStream) (n i : Nat) (s : GenState) (j : Nat)
    (h : ((genLoop r n i s).getD j default).HasObstacle = true) :
    ((genLoop r n i s).getD j default).HasRoad = true := by
  induction n generalizing i s j with
  | zero => cases h
  | succ n ih =>
    cases j with
    | zero =>
      simp only [genLoop, List.getD_cons_zero] at h ⊢
      exact genItem_obstacle_road _ _ _ h
    | succ j =>
      simp only [genLoop, List.getD_cons_succ] at h ⊢
      exact ih _ _ _ h

lemma genLoop_monster_road (r : RandStream) (n i : Nat) (s : GenState) (j : Nat)
    (h : ((genLoop r n i s).getD j default).HasMonster = true) :
    ((genLoop r n i s).getD j default).HasRoad = true := by
  induction n generalizing i s j with
  | zero => cases h
  | succ n ih =>
    cases j with
    | zero =>
      simp only [genLoop, List.getD_cons_zero] at h ⊢
      exact genItem_monster_road _ _ _ h
    | succ j =>
      simp only [genLoop, List.getD_cons_succ] at h ⊢
      exact ih _ _ _ h

lemma genLoop_first10 (r : RandStream) (n i : Nat) (s : GenState) (j : Nat)
    (hj : j < n) (hij : i + j < 10) :
    ((genLoop r n i s).getD j default).HasRoad = true := by
  induction n generalizing i s j with
  | zero => cases hj
  | succ n ih =>
    cases j with
    | zero =>
      simp only [genLoop, List.getD_cons_zero]
      exact genItem_first10 _ _ _ (by omega)
    | succ j =>
      simp only [genLoop, List.getD_cons_succ]
      exact ih _ _ _ (by omega) (by omega)

lemma genLoop_head_obstacle (r : RandStream) (n i : Nat) (s : GenState)
    (h : s.prevHasObstacle = true) :
    ((genLoop r n i s).getD 0 default).HasObstacle = false := by
  cases n with
  | zero => rfl
  | succ n =>
    simp only [genLoop, List.getD_cons_zero]
    exact genItem_prev_obstacle _ _ _ h

lemma genLoop_head_monster (r : RandStream) (n i : Nat) (s : GenState)
    (h : s.prevHasMonster = true) :
    ((genLoop r n i s).getD 0 default).HasMonster = false := by
  cases n with
  | zero => rfl
  | succ n =>
    simp only [genLoop, List.getD_cons_zero]
    exact genItem_prev_monster _ _ _ h

lemma genLoop_obstacle_adjacent (r : RandStream) (n i : Nat) (s : GenState) (j : Nat)
    (h : ((genLoop r n i s).getD j default).HasObstacle = true) :
    ((genLoop r n i s).getD (j + 1) default).HasObstacle = false := by
  induction n generalizing i s j with
  | zero => cases h
  | succ n ih =>
    cases j with
    | zero =>
      simp only [genLoop, List.getD_cons_zero] at h
      simp only [genLoop, List.getD_cons_succ]
      exact genLoop_head_obstacle _ _ _ _ (by rw [genItem_state_obstacle]; exact h)
    | succ j =>
      simp only [genLoop, List.getD_cons_succ] at h ⊢
      exact ih _ _ _ h

lemma genLoop_monster_adjacent (r : RandStream) (n i : Nat) (s : GenState) (j : Nat)
    (h : ((genLoop r n i s).getD j default).HasMonster = true) :
    ((genLoop r n i s).getD (j + 1) default).HasMonster = false := by
  induction n generalizing i s j with
  | zero => cases h
  | succ n ih =>
    cases j with
    | zero =>
      simp only [genLoop, List.getD_cons_zero] at h
      simp only [genLoop, List.getD_cons_succ]
      exact genLoop_head_monster _ _ _ _ (by rw [genItem_state_monster]; exact h)
    | succ j =>
      simp only [genLoop, List.getD_cons_succ] at h ⊢
      exact ih _ _ _ h

lemma clearEdgeMonsters_length (l : List MapItem) :
    (clearEdgeMonsters l).length = l.length := by
  simp [clearEdgeMonsters]

lemma clearEdgeMonsters_getD_eq (l : List MapItem) (j : Nat) (h : j < l.length) :
    (clearEdgeMonsters l).getD j default =
      (if (l.getD j default).HasRoad = false then l.getD j default
       else if (j = 0 ∨ (l.getD (j - 1) default).HasRoad = false) ∨
           (j = l.length - 1 ∨ (l.getD (j + 1) default).HasRoad = false) then
         { l.getD j default with HasMonster := false }
       else l.getD j default) := by
  have hlen : j < (clearEdgeMonsters l).length := by rw [clearEdgeMonsters_length]; exact h
  rw [List.getD_eq_getElem _ _ hlen]
  simp only [clearEdgeMonsters, List.getElem_map, List.getElem_range]

lemma clearEdgeMonsters_getD_oob (l : List MapItem) (j : Nat) (h : l.length <= j) :
    (clearEdgeMonsters l).getD j default = default := by
  apply List.getD_eq_default
  rw [clearEdgeMonsters_length]
  exact h

lemma clearEdgeMonsters_road (l : List MapItem) (j : Nat) :
    ((clearEdgeMonsters l).getD j default).HasRoad = ((l.getD j default)).HasRoad := by
  rcases lt_or_le j l.length with h | h
  · rw [clearEdgeMonsters_getD_eq l j h]
    split
    · rfl
    split <;> rfl
  · rw [clearEdgeMonsters_getD_oob l j h, List.getD_eq_default _ _ h]

lemma clearEdgeMonsters_obstacle (l : List MapItem) (j : Nat) :
    ((clearEdgeMonsters l).getD j default).HasObstacle = ((l.getD j default)).HasObstacle := by
  rcases lt_or_le j l.length with h | h
  · rw [clearEdgeMonsters_getD_eq l j h]
    split
    · rfl
    split <;> rfl
  · rw [clearEdgeMonsters_getD_oob l j h, List.getD_eq_default _ _ h]

lemma clearEdgeMonsters_monster (l : List MapItem) (j : Nat)
    (h : ((clearEdgeMonsters l).getD j default).HasMonster = true) :
    ((l.getD j default)).HasMonster = true := by
  rcases lt_or_le j l.length with hl | hl
  · rw [clearEdgeMonsters_getD_eq l j hl] at h
    revert h
    split
    · exact fun h => h
    split
    · intro h; cases h
    · exact fun h => h
  · rw [clearEdgeMonsters_getD_oob l j hl] at h
    cases h

lemma GenMap_eq_pos (count : Nat) (r : RandStream) (h : count ≠ 0) :
    GenMap count r = clearEdgeMonsters (genLoop r count 0 ⟨0, 0, false, false⟩) := by
  unfold GenMap
  rw [if_neg h]

lemma GenMap_length (count : Nat) (r : RandStream) : (GenMap count r).length = count := by
  by_cases hc : count = 0
  · subst hc; rfl
  · rw [GenMap_eq_pos count r hc, clearEdgeMonsters_length, genLoop_length]

lemma bool_ne_false {b : Bool} (h : ¬b = false) : b = true := by
  cases b
  · exact absurd rfl h
  · rfl

/-- C1 (amended): in every generated level, the has-obstacle and
has-monster flags are true only on cells whose has-ground flag is true
(the has-pickup flag is drawn independently of ground, see the
counterexample). -/
theorem genMap_obstacle_monster_require_road (count : Nat) (r : RandStream) (j : Nat) :
    (((GenMap count r).getD j default).HasObstacle = true →
      ((GenMap count r).getD j default).HasRoad = true) ∧
    (((GenMap count r).getD j default).HasMonster = true →
      ((GenMap count r).getD j default).HasRoad = true) := by
  by_cases hc : count = 0
  · subst hc
    simp [GenMap]
  · rw [GenMap_eq_pos count r hc]
    constructor
    · intro h
      rw [clearEdgeMonsters_obstacle] at h
      rw [clearEdgeMonsters_road]
      exact genLoop_obstacle_road _ _ _ _ _ h
    · intro h
      have h2 := clearEdgeMonsters_monster _ _ h
      rw [clearEdgeMonsters_road]
      exact genLoop_monster_road _ _ _ _ _ h2

/-- C1 counterexample: a generated level whose cell 10 carries a pickup
but no ground, refuting the has-pickup part of the claim. -/
theorem genMap_pickup_without_road_counterexample :
    ((GenMap 11 rPickupNoRoad).getD 10 default).HasTool = true ∧
    ((GenMap 11 rPickupNoRoad).getD 10 default).HasRoad = false := by decide

/-- Witness for C1 (amended) at a concrete level with an obstacle. -/
theorem genMap_obstacle_monster_require_road_witness :
    ((GenMap 10 rObstacleAt3).getD 3 default).HasRoad = true :=
  (genMap_obstacle_monster_require_road 10 rObstacleAt3 3).1 (by decide)

/-- C7: in every generated level no two consecutive cells both carry an
obstacle, and no two consecutive cells both carry a monster. -/
theorem genMap_no_adjacent_hazards (count : Nat) (r : RandStream) (j : Nat) :
    (((GenMap count r).getD j default).HasObstacle &&
      ((GenMap count r).getD (j + 1) default).HasObstacle) = false ∧
    (((GenMap count r).getD j default).HasMonster &&
      ((GenMap count r).getD (j + 1) default).HasMonster) = false := by
  by_cases hc : count = 0
  · subst hc
    simp [GenMap]
  · rw [GenMap_eq_pos count r hc]
    refine ⟨?_, ?_⟩
    · rw [clearEdgeMonsters_obstacle, clearEdgeMonsters_obstacle]
      cases hx : ((genLoop r count 0 ⟨0, 0, false, false⟩).getD j default).HasObstacle with
      | false => rfl
      | true =>
        rw [genLoop_obstacle_adjacent _ _ _ _ _ hx]
        rfl
    · cases hx : ((clearEdgeMonsters (genLoop r count 0 ⟨0, 0, false, false⟩)).getD j
          default).HasMonster with
      | false => rfl
      | true =>
        cases hy : ((clearEdgeMonsters (genLoop r count 0 ⟨0, 0, false, false⟩)).getD (j + 1)
            default).HasMonster with
        | false => rfl
        | true =>
          have hx2 := clearEdgeMonsters_monster _ _ hx
          have hy2 := clearEdgeMonsters_monster _ _ hy
          rw [genLoop_monster_adjacent _ _ _ _ _ hx2] at hy2
          cases hy2

/-- C8: in every generated level, a cell carrying a monster has ground,
is not the first or last cell of the level, and both its neighbours have
ground: a monster never sits at the edge of a contiguous ground run. -/
theorem genMap_monster_not_at_run_edge (count : Nat) (r : RandStream) (j : Nat)
    (h : ((GenMap count r).getD j default).HasMonster = true) :
    ((GenMap count r).getD j default).HasRoad = true ∧
    0 < j ∧ ((GenMap count r).getD (j - 1) default).HasRoad = true ∧
    j + 1 < count ∧ ((GenMap count r).getD (j + 1) default).HasRoad = true := by
  by_cases hc : count = 0
  · subst hc
    simp [GenMap] at h
  · rw [GenMap_eq_pos count r hc] at h ⊢
    have hlen : (genLoop r count 0 (⟨0, 0, false, false⟩ : GenState)).length = count :=
      genLoop_length _ _ _ _
    have hj : j < count := by
      by_contra hjc
      push_neg at hjc
      rw [clearEdgeMonsters_getD_oob _ j (by omega)] at h
      simp at h
    rw [clearEdgeMonsters_getD_eq _ j (by omega)] at h
    by_cases hroad : ((genLoop r count 0 (⟨0, 0, false, false⟩ : GenState)).getD j
        default).HasRoad = false
    · rw [if_pos hroad] at h
      have hr := genLoop_monster_road _ _ _ _ _ h
      rw [hroad] at hr
      cases hr
    · rw [if_neg hroad] at h
      by_cases hcond : ((j = 0 ∨ ((genLoop r count 0 (⟨0, 0, false, false⟩ : GenState)).getD
            (j - 1) default).HasRoad = false) ∨
          (j = (genLoop r count 0 (⟨0, 0, false, false⟩ : GenState)).length - 1 ∨
            ((genLoop r count 0 (⟨0, 0, false, false⟩ : GenState)).getD (j + 1)
              default).HasRoad = false))
      · rw [if_pos hcond] at h
        simp at h
      · rw [if_neg hcond] at h
        push_neg at hcond
        obtain ⟨⟨hj0, hprev⟩, hjlast, hnext⟩ := hcond
        rw [hlen] at hjlast
        refine ⟨?_, ?_, ?_, ?_, ?_⟩
        · rw [clearEdgeMonsters_road]
          exact bool_ne_false hroad
        · omega
        · rw [clearEdgeMonsters_road]
          exact bool_ne_false hprev
        · omega
        · rw [clearEdgeMonsters_road]
          exact bool_ne_false hnext

/-- Witness for C8 at a concrete level with a monster on cell 5. -/
theorem genMap_monster_not_at_run_edge_witness :
    ((GenMap 10 rMonsterAt5).getD 5 default).HasRoad = true ∧
    0 < 5 ∧ ((GenMap 10 rMonsterAt5).getD (5 - 1) default).HasRoad = true ∧
    5 + 1 < 10 ∧ ((GenMap 10 rMonsterAt5).getD (5 + 1) default).HasRoad = true :=
  genMap_monster_not_at_run_edge 10 rMonsterAt5 5 (by decide)

/-- C9: in every generated level, each of the cells with index below 10
(as far as the level reaches) has ground; in particular cell 0 of any
non-empty level has ground. -/
theorem genMap_first_cells_have_road (count : Nat) (r : RandStream) (i : Nat)
    (h1 : i < 10) (h2 : i < count) :
    ((GenMap count r).getD i default).HasRoad = true := by
  have hc : count ≠ 0 := by omega
  rw [GenMap_eq_pos count r hc, clearEdgeMonsters_road]
  exact genLoop_first10 r count 0 _ i h2 (by omega)

/-- Witness for C9: a level of length 1 has ground on cell 0. -/
theorem genMap_first_cells_have_road_witness :
    ((GenMap 1 rHalf).getD 0 default).HasRoad = true :=
  genMap_first_cells_have_road 1 rHalf 0 (by decide) (by decide)

/-! ## Lemmas: player state machine -/

lemma Player.setAnimState_X (p : Player) (s : AnimationState) : (p.setAnimState s).X = p.X := by
  unfold Player.setAnimState
  split <;> rfl

lemma Player.setAnimState_Y (p : Player) (s : AnimationState) : (p.setAnimState s).Y = p.Y := by
  unfold Player.setAnimState
  split <;> rfl

lemma Player.setAnimState_VelocityY (p : Player) (s : AnimationState) :
    (p.setAnimState s).VelocityY = p.VelocityY := by
  unfold Player.setAnimState
  split <;> rfl

lemma Player.setAnimState_IsOnGround (p : Player) (s : AnimationState) :
    (p.setAnimState s).IsOnGround = p.IsOnGround := by
  unfold Player.setAnimState
  split <;> rfl

lemma Player.setAnimState_IsDead (p : Player) (s : AnimationState) :
    (p.setAnimState s).IsDead = p.IsDead := by
  unfold Player.setAnimState
  split <;> rfl

lemma Player.setAnimState_IsFlying (p : Player) (s : AnimationState) :
    (p.setAnimState s).IsFlying = p.IsFlying := by
  unfold Player.setAnimState
  split <;> rfl

lemma Player.setAnimState_flyFrameCount (p : Player) (s : AnimationState) :
    (p.setAnimState s).flyFrameCount = p.flyFrameCount := by
  unfold Player.setAnimState
  split <;> rfl

lemma Player.setAnimState_wasSpaceDown (p : Player) (s : AnimationState) :
    (p.setAnimState s).wasSpaceDown = p.wasSpaceDown := by
  unfold Player.setAnimState
  split <;> rfl

lemma Player.setAnimState_FacingLeft (p : Player) (s : AnimationState) :
    (p.setAnimState s).FacingLeft = p.FacingLeft := by
  unfold Player.setAnimState
  split <;> rfl

lemma Player.setAnimState_hasPlayedDieSound (p : Player) (s : AnimationState) :
    (p.setAnimState s).hasPlayedDieSound = p.hasPlayedDieSound := by
  unfold Player.setAnimState
  split <;> rfl

lemma Player.setAnimState_wasOnGround (p : Player) (s : AnimationState) :
    (p.setAnimState s).wasOnGround = p.wasOnGround := by
  unfold Player.setAnimState
  split <;> rfl

lemma Player.setAnimState_animState (p : Player) (s : AnimationState) :
    (p.setAnimState s).animState = s := by
  unfold Player.setAnimState
  split
  · next h => exact h
  · rfl

lemma Player.transitionJumpStart_preserves (p : Player) (c : AnimationState) :
    (p.transitionJumpStart c).X = p.X ∧ (p.transitionJumpStart c).Y = p.Y ∧
    (p.transitionJumpStart c).VelocityY = p.VelocityY ∧
    (p.transitionJumpStart c).IsOnGround = p.IsOnGround ∧
    (p.transitionJumpStart c).IsDead = p.IsDead ∧
    (p.transitionJumpStart c).IsFlying = p.IsFlying ∧
    (p.transitionJumpStart c).flyFrameCount = p.flyFrameCount ∧
    (p.transitionJumpStart c).wasSpaceDown = p.wasSpaceDown ∧
    (p.transitionJumpStart c).FacingLeft = p.FacingLeft ∧
    (p.transitionJumpStart c).hasPlayedDieSound = p.hasPlayedDieSound ∧
    (p.transitionJumpStart c).wasOnGround = p.wasOnGround := by
  unfold Player.transitionJumpStart
  repeat' split
  all_goals simp [Player.setAnimState_X, Player.setAnimState_Y, Player.setAnimState_VelocityY,
    Player.setAnimState_IsOnGround, Player.setAnimState_IsDead, Player.setAnimState_IsFlying,
    Player.setAnimState_flyFrameCount, Player.setAnimState_wasSpaceDown,
    Player.setAnimState_FacingLeft, Player.setAnimState_hasPlayedDieSound,
    Player.setAnimState_wasOnGround]

lemma Player.transitionJumpEnd_preserves (p : Player) (c : AnimationState) :
    (p.transitionJumpEnd c).X = p.X ∧ (p.transitionJumpEnd c).Y = p.Y ∧
    (p.transitionJumpEnd c).VelocityY = p.VelocityY ∧
    (p.transitionJumpEnd c).IsOnGround = p.IsOnGround ∧
    (p.transitionJumpEnd c).IsDead = p.IsDead ∧
    (p.transitionJumpEnd c).IsFlying = p.IsFlying ∧
    (p.transitionJumpEnd c).flyFrameCount = p.flyFrameCount ∧
    (p.transitionJumpEnd c).wasSpaceDown = p.wasSpaceDown ∧
    (p.transitionJumpEnd c).FacingLeft = p.FacingLeft ∧
    (p.transitionJumpEnd c).hasPlayedDieSound = p.hasPlayedDieSound ∧
    (p.transitionJumpEnd c).wasOnGround = p.wasOnGround := by
  unfold Player.transitionJumpEnd
  repeat' split
  all_goals simp [Player.setAnimState_X, Player.setAnimState_Y, Player.setAnimState_VelocityY,
    Player.setAnimState_IsOnGround, Player.setAnimState_IsDead, Player.setAnimState_IsFlying,
    Player.setAnimState_flyFrameCount, Player.setAnimState_wasSpaceDown,
    Player.setAnimState_FacingLeft, Player.setAnimState_hasPlayedDieSound,
    Player.setAnimState_wasOnGround]

lemma Player.animSwitch_preserves (p : Player) (c : AnimationState) (m : Bool) :
    (p.animSwitch c m).X = p.X ∧ (p.animSwitch c m).Y = p.Y ∧
    (p.animSwitch c m).VelocityY = p.VelocityY ∧
    (p.animSwitch c m).IsOnGround = p.IsOnGround ∧
    (p.animSwitch c m).IsDead = p.IsDead ∧
    (p.animSwitch c m).IsFlying = p.IsFlying ∧
    (p.animSwitch c m).flyFrameCount = p.flyFrameCount ∧
    (p.animSwitch c m).wasSpaceDown = p.wasSpaceDown ∧
    (p.animSwitch c m).FacingLeft = p.FacingLeft ∧
    (p.animSwitch c m).hasPlayedDieSound = p.hasPlayedDieSound ∧
    (p.animSwitch c m).wasOnGround = p.wasOnGround := by
  unfold Player.animSwitch
  repeat' split
  all_goals simp [Player.setAnimState_X, Player.setAnimState_Y, Player.setAnimState_VelocityY,
    Player.setAnimState_IsOnGround, Player.setAnimState_IsDead, Player.setAnimState_IsFlying,
    Player.setAnimState_flyFrameCount, Player.setAnimState_wasSpaceDown,
    Player.setAnimState_FacingLeft, Player.setAnimState_hasPlayedDieSound,
    Player.setAnimState_wasOnGround]

lemma Player.updateAnimationState_preserves (p : Player) (m : Bool) :
    (p.updateAnimationState m).X = p.X ∧ (p.updateAnimationState m).Y = p.Y ∧
    (p.updateAnimationState m).VelocityY = p.VelocityY ∧
    (p.updateAnimationState m).IsOnGround = p.IsOnGround ∧
    (p.updateAnimationState m).IsDead = p.IsDead ∧
    (p.updateAnimationState m).IsFlying = p.IsFlying ∧
    (p.updateAnimationState m).flyFrameCount = p.flyFrameCount ∧
    (p.updateAnimationState m).wasSpaceDown = p.wasSpaceDown ∧
    (p.updateAnimationState m).FacingLeft = p.FacingLeft ∧
    (p.updateAnimationState m).hasPlayedDieSound = p.hasPlayedDieSound := by
  unfold Player.updateAnimationState
  split
  · simp
  split
  · dsimp only
    split <;> simp [Player.setAnimState_X, Player.setAnimState_Y, Player.setAnimState_VelocityY,
      Player.setAnimState_IsOnGround, Player.setAnimState_IsDead, Player.setAnimState_IsFlying,
      Player.setAnimState_flyFrameCount, Player.setAnimState_wasSpaceDown,
      Player.setAnimState_FacingLeft, Player.setAnimState_hasPlayedDieSound]
  · obtain ⟨h1X, h1Y, h1V, h1G, h1D, h1F, h1C, h1S, h1L, h1P, h1W⟩ :=
      Player.transitionJumpStart_preserves p p.animState
    obtain ⟨h2X, h2Y, h2V, h2G, h2D, h2F, h2C, h2S, h2L, h2P, h2W⟩ :=
      Player.transitionJumpEnd_preserves (p.transitionJumpStart p.animState) p.animState
    obtain ⟨h3X, h3Y, h3V, h3G, h3D, h3F, h3C, h3S, h3L, h3P, h3W⟩ :=
      Player.animSwitch_preserves
        ((p.transitionJumpStart p.animState).transitionJumpEnd p.animState) p.animState m
    refine ⟨?_, ?_, ?_, ?_, ?_, ?_, ?_, ?_, ?_, ?_⟩ <;> simp_all

lemma Player.updateFlyingState_cont (p : Player) (mw : ℚ)
    (h : p.flyFrameCount + 1 < flyDurationFrames) :
    (p.updateFlyingState mw).flyFrameCount = p.flyFrameCount + 1 ∧
    (p.updateFlyingState mw).IsFlying = p.IsFlying ∧
    (p.updateFlyingState mw).Y = p.Y ∧
    (p.updateFlyingState mw).VelocityY = p.VelocityY ∧
    (p.updateFlyingState mw).IsDead = p.IsDead ∧
    (p.updateFlyingState mw).animState = p.animState ∧
    (p.updateFlyingState mw).X =
      (if p.X + flySpeed ≤ mw - playerCollisionWidth / 2 then p.X + flySpeed else p.X) := by
  simp only [Player.updateFlyingState]
  rw [if_neg (by omega : ¬(p.flyFrameCount + 1 ≥ flyDurationFrames))]
  split <;> rename_i hmove <;> simp_all

lemma Player.updateFlyingState_exit (p : Player) (mw : ℚ)
    (h : flyDurationFrames ≤ p.flyFrameCount + 1) :
    (p.updateFlyingState mw).IsFlying = false ∧
    (p.updateFlyingState mw).flyFrameCount = 0 ∧
    (p.updateFlyingState mw).animState = StateJumpLoop ∧
    (p.updateFlyingState mw).X = p.X ∧
    (p.updateFlyingState mw).Y = p.Y ∧
    (p.updateFlyingState mw).VelocityY = p.VelocityY ∧
    (p.updateFlyingState mw).IsDead = p.IsDead := by
  simp only [Player.updateFlyingState]
  rw [if_pos (by omega : p.flyFrameCount + 1 ≥ flyDurationFrames)]
  unfold Player.setAnimState
  split <;> simp_all

lemma Player.updateFlyingState_VelocityY (p : Player) (mw : ℚ) :
    (p.updateFlyingState mw).VelocityY = p.VelocityY := by
  rcases lt_or_le (p.flyFrameCount + 1) flyDurationFrames with h | h
  · exact (Player.updateFlyingState_cont p mw h).2.2.2.1
  · exact (Player.updateFlyingState_exit p mw h).2.2.2.2.2.1

lemma Player.updateFlyingState_Y (p : Player) (mw : ℚ) :
    (p.updateFlyingState mw).Y = p.Y := by
  rcases lt_or_le (p.flyFrameCount + 1) flyDurationFrames with h | h
  · exact (Player.updateFlyingState_cont p mw h).2.2.1
  · exact (Player.updateFlyingState_exit p mw h).2.2.2.2.1

lemma Player.updateFlyingState_IsDead (p : Player) (mw : ℚ) :
    (p.updateFlyingState mw).IsDead = p.IsDead := by
  rcases lt_or_le (p.flyFrameCount + 1) flyDurationFrames with h | h
  · exact (Player.updateFlyingState_cont p mw h).2.2.2.2.1
  · exact (Player.updateFlyingState_exit p mw h).2.2.2.2.2.2

lemma Player.checkDeath_onScreen (p : Player) (cameraX : ℚ)
    (h : ¬p.isFullyOffScreen cameraX) : p.checkDeath cameraX = p := by
  unfold Player.checkDeath
  rw [if_neg h]

/-- For an alive flying player that is on screen, one tick of
Player.Update is exactly the flying branch. -/
lemma Player.update_flying_eq (p : Player) (obstacles : List Obstacle) (mw cameraX : ℚ)
    (input : Input) (hdead : p.IsDead = false) (hfly : p.IsFlying = true)
    (hscr : ¬p.isFullyOffScreen cameraX) :
    p.Update obstacles mw cameraX input =
      (((p.updateFlyingState mw).updateAnimationState false)).animationUpdate := by
  unfold Player.Update
  rw [if_pos (by rw [hdead] : p.IsDead = false), Player.checkDeath_onScreen p cameraX hscr,
    if_neg (by rw [hdead]; simp), if_pos hfly]

/-- C5 (amended): while flying, each tick advances the flight counter;
while the counter has not reached the duration the player moves right by
flySpeed unless that would cross the right map bound (then x is
unchanged); gravity, collision and monster death are skipped (velocity,
y and the dead flag are untouched by the whole tick); when the counter
reaches the duration, flying is cleared, the counter reset and the
animation state becomes JumpLoop, so from a fresh pickup the regime ends
after exactly flyDurationFrames ticks. -/
theorem flying_tick_behavior (p : Player) (mw : ℚ) (obstacles : List Obstacle)
    (cameraX : ℚ) (input : Input) :
    (p.flyFrameCount + 1 < flyDurationFrames →
      (p.updateFlyingState mw).flyFrameCount = p.flyFrameCount + 1 ∧
      (p.updateFlyingState mw).IsFlying = p.IsFlying ∧
      (p.updateFlyingState mw).X =
        (if p.X + flySpeed ≤ mw - playerCollisionWidth / 2 then p.X + flySpeed else p.X)) ∧
    (flyDurationFrames ≤ p.flyFrameCount + 1 →
      (p.updateFlyingState mw).IsFlying = false ∧
      (p.updateFlyingState mw).flyFrameCount = 0 ∧
      (p.updateFlyingState mw).animState = StateJumpLoop ∧
      (p.updateFlyingState mw).X = p.X) ∧
    (p.IsDead = false → p.IsFlying = true → ¬p.isFullyOffScreen cameraX →
      (p.Update obstacles mw cameraX input).VelocityY = p.VelocityY ∧
      (p.Update obstacles mw cameraX input).Y = p.Y ∧
      (p.Update obstacles mw cameraX input).IsDead = false) ∧
    (p.IsFlying = true → p.flyFrameCount = 0 → ∀ k, k ≤ flyDurationFrames →
      (p.flyTicks mw k).IsFlying = decide (k < flyDurationFrames) ∧
      (p.flyTicks mw k).flyFrameCount = (if k < flyDurationFrames then k else 0)) := by
  refine ⟨?_, ?_, ?_, ?_⟩
  · intro h
    obtain ⟨c1, c2, _, _, _, _, c7⟩ := Player.updateFlyingState_cont p mw h
    exact ⟨c1, c2, c7⟩
  · intro h
    obtain ⟨e1, e2, e3, e4, _, _, _⟩ := Player.updateFlyingState_exit p mw h
    exact ⟨e1, e2, e3, e4⟩
  · intro hd hf hs
    rw [Player.update_flying_eq p obstacles mw cameraX input hd hf hs]
    obtain ⟨_, hY, hV, _, hD, _, _, _, _, _⟩ :=
      Player.updateAnimationState_preserves (p.updateFlyingState mw) false
    refine ⟨?_, ?_, ?_⟩
    · simp [Player.animationUpdate, hV, Player.updateFlyingState_VelocityY]
    · simp [Player.animationUpdate, hY, Player.updateFlyingState_Y]
    · simp [Player.animationUpdate, hD, Player.updateFlyingState_IsDead, hd]
  · intro hf h0 k
    induction k with
    | zero =>
      intro _
      simp [Player.flyTicks, hf, h0, flyDurationFrames]
    | succ k ih =>
      intro hk
      obtain ⟨ihf, ihc⟩ := ih (by omega)
      have hklt : k < flyDurationFrames := by omega
      rw [if_pos hklt] at ihc
      rw [decide_eq_true hklt] at ihf
      simp only [Player.flyTicks]
      rcases lt_or_le (k + 1) flyDurationFrames with hend | hend
      · obtain ⟨c1, c2, _, _, _, _, _⟩ :=
          Player.updateFlyingState_cont (p.flyTicks mw k) mw (by omega)
        constructor
        · rw [c2]
          simp [hend, ihf]
        · rw [c1, ihc, if_pos hend]
      · obtain ⟨e1, e2, _, _, _, _, _⟩ :=
          Player.updateFlyingState_exit (p.flyTicks mw k) mw (by omega)
        constructor
        · rw [e1]
          simp [show ¬(k + 1 < flyDurationFrames) from by omega]
        · rw [e2, if_neg (by omega)]

lemma Player.update_dead_eq (p : Player) (obstacles : List Obstacle) (mw cameraX : ℚ)
    (input : Input) (h : p.IsDead = true) :
    p.Update obstacles mw cameraX input = p.animationUpdate := by
  simp only [Player.Update]
  rw [if_neg (show ¬p.IsDead = false by rw [h]; simp)]
  rw [if_pos h]

/-- C10: a tick of a dead player advances only the animation cursor:
every other field is unchanged, whatever the inputs, entities, map width
and camera are. -/
theorem dead_player_tick_only_animation (p : Player) (obstacles : List Obstacle)
    (mw cameraX : ℚ) (input : Input) (h : p.IsDead = true) :
    (p.Update obstacles mw cameraX input).X = p.X ∧
    (p.Update obstacles mw cameraX input).Y = p.Y ∧
    (p.Update obstacles mw cameraX input).VelocityY = p.VelocityY ∧
    (p.Update obstacles mw cameraX input).IsOnGround = p.IsOnGround ∧
    (p.Update obstacles mw cameraX input).IsFlying = p.IsFlying ∧
    (p.Update obstacles mw cameraX input).flyFrameCount = p.flyFrameCount ∧
    (p.Update obstacles mw cameraX input).FacingLeft = p.FacingLeft ∧
    (p.Update obstacles mw cameraX input).wasSpaceDown = p.wasSpaceDown ∧
    (p.Update obstacles mw cameraX input).wasOnGround = p.wasOnGround ∧
    (p.Update obstacles mw cameraX input).IsDead = true ∧
    (p.Update obstacles mw cameraX input).hasPlayedDieSound = p.hasPlayedDieSound ∧
    (p.Update obstacles mw cameraX input).animState = p.animState ∧
    (p.Update obstacles mw cameraX input).animFrame =
      animationFrameStep p.animState p.animFrame := by
  rw [Player.update_dead_eq p obstacles mw cameraX input h]
  exact ⟨rfl, rfl, rfl, rfl, rfl, rfl, rfl, rfl, rfl, h, rfl, rfl, rfl⟩

/-- Witness for C10 at a concrete dead player. -/
theorem dead_player_tick_only_animation_witness :
    (pDeadW.Update [] 0 0 ⟨false, false, false⟩).X = pDeadW.X ∧
    (pDeadW.Update [] 0 0 ⟨false, false, false⟩).Y = pDeadW.Y ∧
    (pDeadW.Update [] 0 0 ⟨false, false, false⟩).VelocityY = pDeadW.VelocityY ∧
    (pDeadW.Update [] 0 0 ⟨false, false, false⟩).IsOnGround = pDeadW.IsOnGround ∧
    (pDeadW.Update [] 0 0 ⟨false, false, false⟩).IsFlying = pDeadW.IsFlying ∧
    (pDeadW.Update [] 0 0 ⟨false, false, false⟩).flyFrameCount = pDeadW.flyFrameCount ∧
    (pDeadW.Update [] 0 0 ⟨false, false, false⟩).FacingLeft = pDeadW.FacingLeft ∧
    (pDeadW.Update [] 0 0 ⟨false, false, false⟩).wasSpaceDown = pDeadW.wasSpaceDown ∧
    (pDeadW.Update [] 0 0 ⟨false, false, false⟩).wasOnGround = pDeadW.wasOnGround ∧
    (pDeadW.Update [] 0 0 ⟨false, false, false⟩).IsDead = true ∧
    (pDeadW.Update [] 0 0 ⟨false, false, false⟩).hasPlayedDieSound = pDeadW.hasPlayedDieSound ∧
    (pDeadW.Update [] 0 0 ⟨false, false, false⟩).animState = pDeadW.animState ∧
    (pDeadW.Update [] 0 0 ⟨false, false, false⟩).animFrame =
      animationFrameStep pDeadW.animState pDeadW.animFrame :=
  dead_player_tick_only_animation pDeadW [] 0 0 ⟨false, false, false⟩ rfl

/-- C4: the jump block is edge-triggered: a grounded player jumps
(velocity set to the launch speed, grounded cleared) exactly when the
space key is held this tick and was not held on the previous tick; if it
was already held, nothing changes except the refreshed latch. -/
theorem jump_edge_triggered (p : Player) (spacePressed : Bool) :
    (p.IsOnGround = true → spacePressed = true → p.wasSpaceDown = false →
      (p.handleJump spacePressed).VelocityY = jumpSpeed ∧
      (p.handleJump spacePressed).IsOnGround = false) ∧
    (p.wasSpaceDown = true →
      (p.handleJump spacePressed).VelocityY = p.VelocityY ∧
      (p.handleJump spacePressed).IsOnGround = p.IsOnGround) ∧
    (p.handleJump spacePressed).wasSpaceDown = spacePressed := by
  refine ⟨?_, ?_, ?_⟩
  · intro h1 h2 h3
    simp only [Player.handleJump]
    rw [if_pos ⟨h1, h2, h3⟩]
    exact ⟨rfl, rfl⟩
  · intro h
    simp only [Player.handleJump]
    rw [if_neg (by simp [h])]
    exact ⟨rfl, rfl⟩
  · rfl

/-- Witness for C4: this player jumps on a fresh space press. -/
theorem jump_edge_triggered_witness :
    (pJumpW.handleJump true).VelocityY = jumpSpeed ∧
    (pJumpW.handleJump true).IsOnGround = false :=
  (jump_edge_triggered pJumpW true).1 rfl rfl rfl

/-- C5 counterexample: on a mid-flight tick at the right map bound the
counter advances and the player keeps flying, but x does not change,
refuting the unconditional move-right-by-flySpeed part of the claim. -/
theorem flying_moves_right_counterexample :
    (pFlyAtEdge.updateFlyingState 120).IsFlying = true ∧
    (pFlyAtEdge.updateFlyingState 120).flyFrameCount = pFlyAtEdge.flyFrameCount + 1 ∧
    (pFlyAtEdge.updateFlyingState 120).X = pFlyAtEdge.X ∧
    pFlyAtEdge.X + flySpeed ≠ pFlyAtEdge.X := by
  obtain ⟨c1, c2, _, _, _, _, c7⟩ :=
    Player.updateFlyingState_cont pFlyAtEdge 120 (by norm_num [pFlyAtEdge, flyDurationFrames])
  refine ⟨by rw [c2]; rfl, c1, ?_, ?_⟩
  · rw [c7, if_neg (by norm_num [pFlyAtEdge, playerCollisionWidth, flySpeed])]
  · norm_num [pFlyAtEdge, flySpeed]

/-- Witness for C5 at a concrete flying player far from the map bound. -/
theorem flying_tick_behavior_witness :
    (pFlyFree.updateFlyingState 1200).flyFrameCount = pFlyFree.flyFrameCount + 1 ∧
    (pFlyFree.updateFlyingState 1200).IsFlying = pFlyFree.IsFlying ∧
    (pFlyFree.updateFlyingState 1200).X =
      (if pFlyFree.X + flySpeed ≤ 1200 - playerCollisionWidth / 2 then pFlyFree.X + flySpeed
       else pFlyFree.X) :=
  (flying_tick_behavior pFlyFree 1200 [] 0 ⟨false, false, false⟩).1
    (by norm_num [pFlyFree, flyDurationFrames])

lemma Player.collideLoop_no_collision (p : Player) (l : List Obstacle)
    (h : ∀ o ∈ l, CheckCollision p.GetCollisionBox o.GetCollisionBox = false) :
    Player.collideLoop p l = p := by
  induction l with
  | nil => rfl
  | cons o rest ih =>
    rw [Player.collideLoop, if_pos (h o (List.mem_cons_self o rest))]
    exact ih (fun o ho => h o (List.mem_cons_of_mem _ ho))

lemma Player.collideLoop_append (p : Player) (pre rest : List Obstacle)
    (h : ∀ o ∈ pre, CheckCollision p.GetCollisionBox o.GetCollisionBox = false) :
    Player.collideLoop p (pre ++ rest) = Player.collideLoop p rest := by
  induction pre with
  | nil => rfl
  | cons o pr ih =>
    rw [List.cons_append, Player.collideLoop, if_pos (h o (List.mem_cons_self o pr))]
    exact ih (fun o ho => h o (List.mem_cons_of_mem _ ho))

/-- C3: a falling player (velocity not negative) overlapping a Grass or
Obstacle entity with their bottom edge strictly below the entity top is
snapped to that top edge, with velocity zeroed and the grounded flag
set; surrounding non-overlapping entities do not interfere. -/
theorem falling_player_lands_on_top (p : Player) (e : Obstacle) (pre post : List Obstacle)
    (htype : e.type = ObstacleTypeGrass ∨ e.type = ObstacleTypeObstacle)
    (hv : p.VelocityY ≥ 0)
    (hcol : CheckCollision p.GetCollisionBox e.GetCollisionBox = true)
    (hy : p.Y > e.GetCollisionBox.top)
    (hpre : ∀ o ∈ pre, CheckCollision p.GetCollisionBox o.GetCollisionBox = false)
    (hpost : ∀ o ∈ post,
      CheckCollision (Box.mk (p.X - playerCollisionWidth / 2) (p.X + playerCollisionWidth / 2)
        (e.GetCollisionBox.top - playerCollisionHeight) (e.GetCollisionBox.top))
        o.GetCollisionBox = false) :
    (p.checkCollisionWithObstacles (pre ++ e :: post)).Y = e.GetCollisionBox.top ∧
    (p.checkCollisionWithObstacles (pre ++ e :: post)).VelocityY = 0 ∧
    (p.checkCollisionWithObstacles (pre ++ e :: post)).IsOnGround = true := by
  unfold Player.checkCollisionWithObstacles
  have hpre0 : ∀ o ∈ pre,
      CheckCollision ({ p with IsOnGround := false } : Player).GetCollisionBox
        o.GetCollisionBox = false := fun o ho => hpre o ho
  rw [Player.collideLoop_append _ pre _ hpre0]
  have hcol0 : CheckCollision ({ p with IsOnGround := false } : Player).GetCollisionBox
      e.GetCollisionBox = true := hcol
  rw [Player.collideLoop, if_neg (by rw [hcol0]; simp)]
  have hsnap : (if ({ p with IsOnGround := false } : Player).VelocityY ≥ 0 ∧
      ({ p with IsOnGround := false } : Player).Y > e.GetCollisionBox.top then
        { ({ p with IsOnGround := false } : Player) with
          Y := e.GetCollisionBox.top, VelocityY := 0, IsOnGround := true }
      else ({ p with IsOnGround := false } : Player)) =
      { p with Y := e.GetCollisionBox.top, VelocityY := 0, IsOnGround := true } := by
    rw [if_pos ⟨hv, hy⟩]
  rcases htype with ht | ht <;> rw [ht] <;> dsimp only <;> rw [hsnap] <;>
    rw [Player.collideLoop_no_collision
      ({ p with Y := e.GetCollisionBox.top, VelocityY := 0, IsOnGround := true } : Player)
      post (fun o ho => hpost o ho)] <;>
    exact ⟨rfl, rfl, rfl⟩

/-- Witness for C3 at a concrete falling player and grass tile. -/
theorem falling_player_lands_on_top_witness :
    (pLandW.checkCollisionWithObstacles [eLandW]).Y = eLandW.GetCollisionBox.top ∧
    (pLandW.checkCollisionWithObstacles [eLandW]).VelocityY = 0 ∧
    (pLandW.checkCollisionWithObstacles [eLandW]).IsOnGround = true :=
  falling_player_lands_on_top pLandW eLandW [] [] (Or.inl rfl)
    (by norm_num [pLandW])
    (by norm_num [CheckCollision, Player.GetCollisionBox, Obstacle.GetCollisionBox, pLandW,
      eLandW, playerCollisionWidth, playerCollisionHeight])
    (by norm_num [Obstacle.GetCollisionBox, pLandW, eLandW])
    (by simp)
    (by simp)

/-! ## Lemmas: session controller -/

lemma touchedTool_eq_true_iff (p : Player) (o : Obstacle) :
    touchedTool p o = true ↔
      (o.type = ObstacleTypeTool ∧
        CheckCollision p.GetCollisionBox o.GetCollisionBox = true) := by
  simp [touchedTool]

@[simp] lemma touchedTool_resetCount (p : Player) (o : Obstacle) :
    touchedTool { p with flyFrameCount := 0 } o = touchedTool p o := rfl

lemma removeToolsLoop_flying (cx : ℚ) (p : Player) (hf : p.IsFlying = true)
    (l : List Obstacle) :
    removeToolsLoop cx p l =
      ((if l.any (touchedTool p) then { p with flyFrameCount := 0 } else p),
        l.filter (fun o => !touchedTool p o)) := by
  induction l with
  | nil => simp [removeToolsLoop]
  | cons o rest ih =>
    rw [removeToolsLoop, ih]
    by_cases hrest : rest.any (touchedTool p) = true
    · by_cases hhead : touchedTool p o = true
      · simp only [hrest, if_true, ← touchedTool_eq_true_iff, touchedTool_resetCount, hhead,
          List.any_cons, Bool.true_or, Bool.or_true, List.filter_cons, Bool.not_true, hf]
        simp [hf]
        exact hhead
      · simp only [hrest, if_true, ← touchedTool_eq_true_iff, touchedTool_resetCount, hhead,
          List.any_cons, List.filter_cons]
        simp [hhead, hrest]
    · have hrest' : rest.any (touchedTool p) = false := by
        cases hx : rest.any (touchedTool p)
        · rfl
        · exact absurd hx hrest
      by_cases hhead : touchedTool p o = true
      · simp only [hrest', if_false, Bool.false_eq_true, ← touchedTool_eq_true_iff, hhead,
          List.any_cons, List.filter_cons]
        simp [hhead, hrest', hf]
      · simp only [hrest', ← touchedTool_eq_true_iff, hhead, List.any_cons, List.filter_cons]
        simp [hhead, hrest']

lemma removeToolsLoop_notFlying (cx : ℚ) (p : Player) (hnf : p.IsFlying = false)
    (l : List Obstacle) :
    ((removeToolsLoop cx p l).1.IsFlying = l.any (touchedTool p)) ∧
    (l.any (touchedTool p) = true →
      (removeToolsLoop cx p l).1.Y = 240 ∧
      (removeToolsLoop cx p l).1.X = cx + windowWidth / 2 ∧
      (removeToolsLoop cx p l).1.animState = StateFly ∧
      (removeToolsLoop cx p l).1.flyFrameCount = 0) ∧
    (l.any (touchedTool p) = false → removeToolsLoop cx p l = (p, l)) := by
  induction l with
  | nil =>
    refine ⟨by simp [removeToolsLoop, hnf], by simp, fun _ => rfl⟩
  | cons o rest ih =>
    obtain ⟨ih1, ih2, ih3⟩ := ih
    simp only [removeToolsLoop]
    by_cases hrest : rest.any (touchedTool p) = true
    · obtain ⟨ihY, ihX, ihA, ihC⟩ := ih2 hrest
      have ihF : (removeToolsLoop cx p rest).1.IsFlying = true := by rw [ih1, hrest]
      by_cases hhead : (o.type = ObstacleTypeTool ∧
          CheckCollision (removeToolsLoop cx p rest).1.GetCollisionBox
            o.GetCollisionBox = true)
      · rw [if_pos hhead, if_neg (by simp [ihF])]
        refine ⟨by simp [ihF, hrest], fun _ => ⟨by simp [ihY], by simp [ihX],
          by simp [ihA], by simp⟩, fun habs => ?_⟩
        simp [hrest] at habs
      · rw [if_neg hhead]
        refine ⟨by simp [ihF, hrest], fun _ => ⟨by simp [ihY], by simp [ihX],
          by simp [ihA], by simp [ihC]⟩, fun habs => ?_⟩
        simp [hrest] at habs
    · have hrest' : rest.any (touchedTool p) = false := by
        cases hx : rest.any (touchedTool p)
        · rfl
        · exact absurd hx hrest
      rw [ih3 hrest']
      by_cases hhead : touchedTool p o = true
      · rw [if_pos ((touchedTool_eq_true_iff p o).mp hhead), if_pos hnf]
        refine ⟨?_, fun _ => ⟨?_, ?_, ?_, ?_⟩, fun habs => ?_⟩
        · simp [Player.setAnimState_IsFlying, hhead]
        · simp [Player.setAnimState_Y]
        · simp [Player.setAnimState_X]
        · simp [Player.setAnimState_animState]
        · simp
        · simp [hhead] at habs
      · have hhead' : touchedTool p o = false := by
          cases hx : touchedTool p o
          · rfl
          · exact absurd hx hhead
        rw [if_neg (fun hc => hhead ((touchedTool_eq_true_iff p o).mpr hc))]
        refine ⟨by simp [hnf, hhead', hrest'], fun habs => ?_, fun _ => rfl⟩
        simp [hhead', hrest'] at habs

/-- C6 (amended): the tool scan walks the live collection from its back;
each Pickup overlapping the player at the moment it is examined is
removed, and the flight-frame counter is reset on every such touch, also
when the player is already flying. While the player is flying its
position never changes, so exactly the pickups overlapping the player
are removed and the only player change is the counter reset. If the
player is not flying, it becomes flying iff some pickup overlaps it, and
then it is repositioned to the mid-air anchor (y 240, x camera plus half
a window) in the Fly animation with a fresh counter; with no overlapping
pickup the tick changes nothing. -/
theorem removeTouchedTools_behavior (g : Game) :
    (g.player.IsFlying = true →
      (g.removeTouchedTools).Obstacles =
        g.Obstacles.filter (fun o => !touchedTool g.player o) ∧
      (g.removeTouchedTools).player =
        (if g.Obstacles.any (touchedTool g.player) then
          { g.player with flyFrameCount := 0 }
         else g.player)) ∧
    (g.player.IsFlying = false →
      ((g.removeTouchedTools).player.IsFlying = g.Obstacles.any (touchedTool g.player)) ∧
      (g.Obstacles.any (touchedTool g.player) = true →
        (g.removeTouchedTools).player.Y = 240 ∧
        (g.removeTouchedTools).player.X = g.CameraX + windowWidth / 2 ∧
        (g.removeTouchedTools).player.animState = StateFly ∧
        (g.removeTouchedTools).player.flyFrameCount = 0) ∧
      (g.Obstacles.any (touchedTool g.player) = false → g.removeTouchedTools = g)) := by
  constructor
  · intro hf
    simp only [Game.removeTouchedTools]
    rw [removeToolsLoop_flying g.CameraX g.player hf g.Obstacles]
    constructor
    · rfl
    · split <;> rfl
  · intro hnf
    obtain ⟨h1, h2, h3⟩ := removeToolsLoop_notFlying g.CameraX g.player hnf g.Obstacles
    refine ⟨h1, h2, fun hnone => ?_⟩
    simp only [Game.removeTouchedTools]
    rw [h3 hnone]

/-- C6 counterexample: a pickup touched while already flying is removed,
but the flight state does not stay unchanged: the flight-frame counter
is reset from 7 to 0 (restarting the flight duration). -/
theorem pickup_while_flying_resets_counter_counterexample :
    gFlyMid.player.flyFrameCount = 7 ∧
    (gFlyMid.removeTouchedTools).player.flyFrameCount = 0 ∧
    (gFlyMid.removeTouchedTools).player.IsFlying = true ∧
    (gFlyMid.removeTouchedTools).Obstacles = [] := by
  have hf : gFlyMid.player.IsFlying = true := rfl
  have htt : touchedTool pFlyMid eToolW = true := by
    norm_num [touchedTool, CheckCollision, Player.GetCollisionBox, Obstacle.GetCollisionBox,
      pFlyMid, eToolW, playerCollisionWidth, playerCollisionHeight]
  obtain ⟨hobs, hpl⟩ := (removeTouchedTools_behavior gFlyMid).1 hf
  refine ⟨rfl, ?_, ?_, ?_⟩
  · rw [hpl, if_pos (by simp [gFlyMid, htt])]
  · rw [hpl, if_pos (by simp [gFlyMid, htt])]
    rfl
  · rw [hobs]
    simp [gFlyMid, htt]

/-- Witness for C6 (amended), applying it to the concrete session state
of the flying player. -/
theorem removeTouchedTools_behavior_witness :
    (gFlyMid.removeTouchedTools).Obstacles =
      gFlyMid.Obstacles.filter (fun o => !touchedTool gFlyMid.player o) ∧
    (gFlyMid.removeTouchedTools).player =
      (if gFlyMid.Obstacles.any (touchedTool gFlyMid.player) then
        { gFlyMid.player with flyFrameCount := 0 }
       else gFlyMid.player) :=
  (removeTouchedTools_behavior gFlyMid).1 rfl
